import Mathlib

/-!
Shallow embedding of `src/Mod/Path/PathScripts/PathThreadMilling.py`, the
FreeCAD thread-milling operation.

Modelling conventions:
* Python floats are modelled as exact rationals; every numeric literal of the
  source is an exact decimal.
* The transcendental library calls of the helix synthesizer
  (`math.sin`, `math.cos`, `math.atan2`) are supplied through an explicit
  oracle record, so the control flow and arithmetic of the source stay
  verbatim while the trigonometric values remain abstract.
* Python string enums (thread types, directions, orientations, G-code
  command names) are kept as strings, exactly as the source compares them.
* `dr = float(major - minor) / count` raises `ZeroDivisionError` in Python
  when `count == 0`; fallible evaluation is modelled with `Option`.
-/

/-- 2D point: a hole or boss center (`FreeCAD.Vector` restricted to x/y as the
planner always passes z = 0). -/
structure Vec2 where
  x : ℚ
  y : ℚ
deriving DecidableEq

/-- `Path.Command`: a command name together with its parameter mapping.
Python keeps parameters in an insertion-ordered dict; the list preserves the
insertion order of the source. -/
structure PathCommand where
  name : String
  params : List (String × ℚ)
deriving DecidableEq

/-- `dict.update` restricted to a single key, as used for the feed-rate
tagging: overwrite in place when the key is present, append otherwise. -/
def setParam (ps : List (String × ℚ)) (key : String) (v : ℚ) : List (String × ℚ) :=
  if ps.any (fun p => p.1 = key) then ps.map (fun p => if p.1 = key then (key, v) else p)
  else ps ++ [(key, v)]

/-- Line 40: `SQRT_3_DIVIDED_BY_2 = 0.8660254037844386`, the source's decimal
literal for sqrt(3)/2, embedded exactly. -/
def SQRT_3_DIVIDED_BY_2 : ℚ := 0.8660254037844386

/-- Lines 51-73, `threadRadii(internal, majorDia, minorDia, toolDia, toolCrest)`:
the pair of tool-center radii for the thread.  The source's
`if toolCrest is None: toolCrest = 0.0` guard is dropped because the embedding
passes numbers, never `None` (the planner itself passes
`float(self.tool.Crest)`). -/
def threadRadii (internal : Bool) (majorDia minorDia toolDia toolCrest : ℚ) : ℚ × ℚ :=
  let H := ((majorDia - minorDia) / 2) * 1.6
  if internal then
    -- mill inside out
    let outerTip := majorDia / 2 + H / 8
    let toolTip := outerTip - toolCrest * SQRT_3_DIVIDED_BY_2
    ((minorDia - toolDia) / 2, toolTip - toolDia / 2)
  else
    -- mill outside in
    let innerTip := minorDia / 2 - H / 4
    let toolTip := innerTip - toolCrest * SQRT_3_DIVIDED_BY_2
    ((majorDia + toolDia) / 2, toolTip + toolDia / 2)

/-- Lines 75-81, `threadPasses(count, radii, internal, ...)`.  The radius
source is a function argument, exactly as in the source (the planner passes
`threadRadii`).  `count` is a Python int; `count == 0` raises
`ZeroDivisionError` at `dr = float(major - minor) / count`, modelled as
`none`; a negative `count` yields an empty list (`range(count)` is empty). -/
def threadPasses (count : ℤ) (radii : Bool → ℚ → ℚ → ℚ → ℚ → ℚ × ℚ)
    (internal : Bool) (majorDia minorDia toolDia toolCrest : ℚ) : Option (List ℚ) :=
  let p := radii internal majorDia minorDia toolDia toolCrest
  let minor := p.1
  let major := p.2
  if count = 0 then none
  else
    let dr := (major - minor) / (count : ℚ)
    if internal then
      some ((List.range count.toNat).map fun i => minor + dr * ((i : ℚ) + 1))
    else
      some ((List.range count.toNat).map fun i => major - dr * ((i : ℚ) + 1))

/-- Property bag of the operation object (`obj`), restricted to the fields the
planner reads.  `ThreadName`, `ThreadFit` and `ClearanceOp` are omitted: no
function under verification reads them.  Quantities (`.Value`) are plain
rationals. -/
structure OpConfig where
  ThreadOrientation : String
  ThreadType : String
  MajorDiameter : ℚ
  MinorDiameter : ℚ
  Pitch : ℚ
  TPI : ℤ
  Passes : ℤ
  Direction : String
  LeadInOut : Bool
  StartDepth : ℚ
  FinalDepth : ℚ
  ClearanceHeight : ℚ
deriving DecidableEq

/-- Tool attributes used by the planner (`tool.Diameter`, `tool.Crest`). -/
structure ToolSpec where
  Diameter : ℚ
  Crest : ℚ
deriving DecidableEq

/-- Lines 84-96, `elevatorRadius(obj, center, internal, tool)`.  Besides the
offset, the second component records whether the tool-too-large diagnostic
(`PathLog.error`, line 91) was reported. -/
def elevatorRadius (obj : OpConfig) (center : Vec2) (internal : Bool) (tool : ToolSpec) :
    ℚ × Bool :=
  if internal then
    let dy := (obj.MinorDiameter - tool.Diameter) / 2 - 1
    if dy < 0 then (0, decide (obj.MinorDiameter < tool.Diameter))
    else (dy, false)
  else
    ((obj.MajorDiameter + tool.Diameter) / 2 + 1, false)

/-- Lines 98-100, `comment(path, msg)`: the bracketed comment command appended
around path-segment boundaries. -/
def commentCmd (msg : String) : PathCommand :=
  ⟨"(------- " ++ msg ++ " -------)", []⟩

/-- Truncation toward zero on rationals: Python's `int(n)` for a float `n`. -/
def ratTrunc (q : ℚ) : ℤ :=
  Int.tdiv q.num (q.den : ℤ)

/-- Modelled from the spec: `PathGeom.isRoughly` (from
`PathScripts/PathGeom.py`, which is not among the sources) is described by the
spec only as floating-point tolerance equality of two coordinates; it is
modelled as agreement within 1/100000. -/
def isRoughly (a b : ℚ) : Bool :=
  decide (|a - b| ≤ 1 / 100000)

/-- Oracle for the transcendental library calls of the source.  `sinpi k` and
`cospi k` stand for `math.sin(k * math.pi)` and `math.cos(k * math.pi)`;
`atan2`, `cos` and `sin` stand for the plain library functions used by the
lead-out computation. -/
structure TrigOracle where
  sinpi : ℚ → ℚ
  cospi : ℚ → ℚ
  atan2 : ℚ → ℚ → ℚ
  cos : ℚ → ℚ
  sin : ℚ → ℚ

/-- Lines 102-113, class `_ThreadInternal`, the helper for the helix
synthesizer.  Fields are exactly the attributes set by `__init__` (the
constructor logic itself is `_ThreadInternal.init` below). -/
structure _ThreadInternal where
  cmd : String
  pitch : ℚ
  hPitch : ℚ
  zStart : ℚ
  zFinal : ℚ
deriving DecidableEq

namespace _ThreadInternal

/-- Lines 105-113, `__init__(cmd, zStart, zFinal, pitch)`: orient the pitch so
the helix walks from `zStart` toward `zFinal`, and precompute the half pitch. -/
def init (cmd : String) (zStart zFinal pitch : ℚ) : _ThreadInternal :=
  let p := if zStart < zFinal then pitch else -pitch
  ⟨cmd, p, p / 2, zStart, zFinal⟩

/-- Lines 115-119, `overshoots(z)`: adding another half helix would leave the
thread bounds. -/
def overshoots (t : _ThreadInternal) (z : ℚ) : Bool :=
  if t.pitch < 0 then decide (z + t.hPitch < t.zFinal)
  else decide (z + t.hPitch > t.zFinal)

/-- Lines 133-135, `isG3()`. -/
def isG3 (t : _ThreadInternal) : Bool :=
  ["G3", "G03", "g3", "g03"].contains t.cmd

/-- Lines 121-125, `adjustX(x, dx)`. -/
def adjustX (t : _ThreadInternal) (x dx : ℚ) : ℚ :=
  if t.isG3 = decide (t.pitch > 0) then x + dx else x - dx

/-- Lines 127-131, `adjustY(y, dy)`; both arms of the source's branch return
the same expression, reproduced verbatim. -/
def adjustY (t : _ThreadInternal) (y dy : ℚ) : ℚ :=
  if t.isG3 then y - dy else y - dy

/-- Lines 137-139, `isUp()`. -/
def isUp (t : _ThreadInternal) : Bool :=
  decide (t.pitch > 0)

/-- Lines 181-182 of `threadCommands`: the fractional part of the number of
half turns, `n = fabs(zFinal - zStart) / hPitch; k = n - int(n)`. -/
def fracTurn (t : _ThreadInternal) : ℚ :=
  let n := |t.zFinal - t.zStart| / t.hPitch
  n - (ratTrunc n : ℚ)

end _ThreadInternal

/-- Lines 183-186 of `threadCommands`: the partial-turn finish point
`(x, y) = (adjustX(center.x, r*dx), adjustY(center.y, r*dy))` with
`dy = cos(k*pi)`, `dx = sin(k*pi)`. -/
def threadFinish (T : TrigOracle) (t : _ThreadInternal) (center : Vec2) (r : ℚ) : ℚ × ℚ :=
  let k := t.fracTurn
  let dy := T.cospi k
  let dx := T.sinpi k
  (t.adjustX center.x (r * dx), t.adjustY center.y (r * dy))

/-- Fuel bound for the helix while-loop (lines 165-175).  The source loop
advances `z` by `hPitch` every iteration and breaks as soon as one more half
pitch overshoots `zFinal`, so whenever it terminates it runs at most
`trunc((zFinal - zStart)/hPitch) + 2` iterations; with `hPitch = 0` and
`zStart` not roughly `zFinal` the source loop does not terminate at all, and
the embedding stops immediately. -/
def helixFuel (t : _ThreadInternal) : ℕ :=
  if t.hPitch = 0 then 0
  else (ratTrunc ((t.zFinal - t.zStart) / t.hPitch)).toNat + 2

/-- Lines 162-175 of `threadCommands`: the alternating half-helix loop.
Returns the emitted arc commands together with the final `z`, `r` and `i`.
The fuel argument only bounds the recursion; on every terminating run of the
source loop the `isRoughly`/`overshoots` exits fire before the fuel runs out. -/
def helixLoop (t : _ThreadInternal) (yMin yMax : ℚ) :
    ℕ → ℚ → ℚ → ℕ → List PathCommand × ℚ × ℚ × ℕ
  | 0, z, r, i => ([], z, r, i)
  | fuel + 1, z, r, i =>
    if isRoughly z t.zFinal then ([], z, r, i)
    else if t.overshoots z then ([], z, r, i)
    else
      let y := if i % 2 = 0 then yMin else yMax
      let c : PathCommand := ⟨t.cmd, [("Y", y), ("Z", z + t.hPitch), ("J", r)]⟩
      let rest := helixLoop t yMin yMax fuel (z + t.hPitch) (-r) (i + 1)
      (c :: rest.1, rest.2)

/-- Lines 142-209, `threadCommands(center, cmd, zStart, zFinal, pitch, radius,
leadInOut, elevator)`: the full motion sequence of a single pass. -/
def threadCommands (T : TrigOracle) (center : Vec2) (cmd : String)
    (zStart zFinal pitch radius : ℚ) (leadInOut : Bool) (elevator : ℚ) : List PathCommand :=
  let thread := _ThreadInternal.init cmd zStart zFinal pitch
  let yMin := center.y - radius
  let yMax := center.y + radius
  let entry : List PathCommand :=
    [⟨"G0", [("X", center.x), ("Y", center.y + elevator)]⟩,
     ⟨"G0", [("Z", thread.zStart)]⟩]
  let leadin : List PathCommand :=
    if leadInOut then
      [commentCmd "lead-in",
       ⟨thread.cmd, [("Y", yMax), ("J", (yMax - (center.y + elevator)) / 2)]⟩,
       commentCmd "lead-in"]
    else [⟨"G1", [("Y", yMax)]⟩]
  let res := helixLoop thread yMin yMax (helixFuel thread) thread.zStart (-radius) 0
  let z := res.2.1
  let r := res.2.2.1
  let i := res.2.2.2
  let fin : List PathCommand × ℚ × ℚ :=
    if isRoughly z thread.zFinal then
      ([], center.x, if i % 2 = 0 then yMin else yMax)
    else
      let p := threadFinish T thread center r
      ([commentCmd "finish-thread",
        ⟨thread.cmd, [("X", p.1), ("Y", p.2), ("Z", thread.zFinal), ("J", r)]⟩,
        commentCmd "finish-thread"], p.1, p.2)
  let a := T.atan2 (fin.2.2 - center.y) (fin.2.1 - center.x)
  let dx := T.cos a * elevator
  let dy := T.sin a * elevator
  let leadout : List PathCommand :=
    if leadInOut then
      [commentCmd "lead-out",
       ⟨thread.cmd, [("X", center.x + dx), ("Y", center.y + dy), ("I", dx / 2), ("J", dy / 2)]⟩,
       commentCmd "lead-out"]
    else []
  entry ++ leadin ++ res.1 ++ fin.1 ++ leadout ++
    [⟨"G1", [("X", center.x + dx), ("Y", center.y - dy)]⟩]

namespace ObjectThreadMilling

/-- Lines 216-228: the class-level string constants. -/
def LeftHand : String := "LeftHand"

def RightHand : String := "RightHand"

def ThreadTypeCustomExternal : String := "CustomExternal"

def ThreadTypeCustomInternal : String := "CustomInternal"

def ThreadTypeImperialExternal2A : String := "ImperialExternal2A"

def ThreadTypeImperialExternal3A : String := "ImperialExternal3A"

def ThreadTypeImperialInternal2B : String := "ImperialInternal2B"

def ThreadTypeImperialInternal3B : String := "ImperialInternal3B"

def ThreadTypeMetricExternal4G6G : String := "MetricExternal4G6G"

def ThreadTypeMetricExternal6G : String := "MetricExternal6G"

def ThreadTypeMetricInternal6H : String := "MetricInternal6H"

def DirectionClimb : String := "Climb"

def DirectionConventional : String := "Conventional"

/-- Lines 249-254, `ThreadTypesInternal`. -/
def ThreadTypesInternal : List String :=
  [ThreadTypeCustomInternal, ThreadTypeImperialInternal2B,
   ThreadTypeImperialInternal3B, ThreadTypeMetricInternal6H]

/-- Lines 242-248, `ThreadTypesExternal`. -/
def ThreadTypesExternal : List String :=
  [ThreadTypeCustomExternal, ThreadTypeImperialExternal2A,
   ThreadTypeImperialExternal3A, ThreadTypeMetricExternal4G6G,
   ThreadTypeMetricExternal6G]

/-- Lines 418-419, `_isThreadInternal(obj)`: membership of the thread type in
`ThreadTypesInternal`. -/
def _isThreadInternal (obj : OpConfig) : Bool :=
  ThreadTypesInternal.contains obj.ThreadType

/-- Lines 421-430, `_threadSetupInternal(obj)`: arc command and depth ordering
for an internal thread (Climb must always be G3). -/
def _threadSetupInternal (obj : OpConfig) : String × ℚ × ℚ :=
  if obj.Direction = DirectionClimb then
    if obj.ThreadOrientation = RightHand then ("G3", obj.FinalDepth, obj.StartDepth)
    else ("G3", obj.StartDepth, obj.FinalDepth)
  else
    if obj.ThreadOrientation = RightHand then ("G2", obj.StartDepth, obj.FinalDepth)
    else ("G2", obj.FinalDepth, obj.StartDepth)

/-- Lines 432-442, `threadSetup(obj)`: for external thread types the arc
command of the internal result is reversed, the depths are kept. -/
def threadSetup (obj : OpConfig) : String × ℚ × ℚ :=
  let s := _threadSetupInternal obj
  if ThreadTypesInternal.contains obj.ThreadType then s
  else if s.1 = "G2" then ("G3", s.2.1, s.2.2)
  else ("G2", s.2.1, s.2.2)

/-- Lines 444-454, `threadPassRadii(obj)`: an alternative pass computation
that clamps `obj.Passes` to 1; no execution path of the module calls it. -/
def threadPassRadii (obj : OpConfig) (toolDiameter : ℚ) : List ℚ :=
  let rMajor := (obj.MajorDiameter - toolDiameter) / 2
  let rMinor := (obj.MinorDiameter - toolDiameter) / 2
  let passes : ℤ := if obj.Passes < 1 then 1 else obj.Passes
  let rPass := (rMajor - rMinor) / (passes : ℚ)
  (([rMajor] ++ (List.range (passes.toNat - 1)).map
      (fun i => rMajor - rPass * ((i : ℚ) + 1))).reverse)

/-- Lines 475-481 of `executeThreadMill`: feed-rate tagging of one command
(`F = vertRapid` on G0, `F = horizFeed` on G1/G2/G3). -/
def tagFeed (vertRapid horizFeed : ℚ) (c : PathCommand) : PathCommand :=
  let p1 := if ["G0"].contains c.name then setParam c.params "F" vertRapid else c.params
  let p2 := if ["G1", "G2", "G3"].contains c.name then setParam p1 "F" horizFeed else p1
  ⟨c.name, p2⟩

/-- Lines 456-486, `executeThreadMill(obj, loc, gcode, zStart, zFinal, pitch)`:
clearance retract, one `threadCommands` block per pass radius with feed-rate
tagging, clearance retract.  Propagates the `ZeroDivisionError` of
`threadPasses` for `obj.Passes == 0` as `none`. -/
def executeThreadMill (T : TrigOracle) (obj : OpConfig) (tool : ToolSpec)
    (vertRapid horizFeed : ℚ) (loc : Vec2) (gcode : String)
    (zStart zFinal pitch : ℚ) : Option (List PathCommand) :=
  let elevator := (elevatorRadius obj loc (_isThreadInternal obj) tool).1
  match threadPasses obj.Passes threadRadii (_isThreadInternal obj)
      obj.MajorDiameter obj.MinorDiameter tool.Diameter tool.Crest with
  | none => none
  | some rs =>
    some ([⟨"G0", [("Z", obj.ClearanceHeight), ("F", vertRapid)]⟩]
      ++ (rs.map (fun radius =>
            (threadCommands T loc gcode zStart zFinal pitch radius obj.LeadInOut
              elevator).map (tagFeed vertRapid horizFeed))).flatten
      ++ [⟨"G0", [("Z", obj.ClearanceHeight), ("F", vertRapid)]⟩])

/-- Lines 494-496 of `circularHoleExecute`: the resolved pitch,
`25.4 / obj.TPI` when `obj.TPI > 0`, else `obj.Pitch`. -/
def resolvedPitch (obj : OpConfig) : ℚ :=
  if 0 < obj.TPI then 25.4 / (obj.TPI : ℚ) else obj.Pitch

/-- Diagnostic text of line 498 (the numeric interpolation is dropped). -/
def pitchErrMsg : String := "Cannot create thread with pitch"

/-- Diagnostic text of line 512. -/
def toolErrMsg : String := "No suitable Tool found for thread milling operation"

/-- Lines 488-512, `circularHoleExecute(obj, holes)`: the per-operation
planner.  `toolSupported` stands for `isToolSupported(obj, self.tool)` (an
attribute test on the host tool object).  The result pairs the accumulated
command list with the reported diagnostics; `none` models an uncaught Python
exception. -/
def circularHoleExecute (T : TrigOracle) (obj : OpConfig) (tool : ToolSpec)
    (toolSupported : Bool) (vertRapid horizFeed : ℚ) (holes : List Vec2) :
    Option (List PathCommand × List String) :=
  if toolSupported then
    let cl0 : List PathCommand := [⟨"(Begin Thread Milling)", []⟩]
    let setup := threadSetup obj
    let pitch := resolvedPitch obj
    if pitch ≤ 0 then some (cl0, [pitchErrMsg])
    else
      (holes.foldl
        (fun acc loc =>
          match acc with
          | none => none
          | some cs =>
            match executeThreadMill T obj tool vertRapid horizFeed loc
                setup.1 setup.2.1 setup.2.2 pitch with
            | none => none
            | some cs2 => some (cs ++ cs2))
        (some cl0)).map (fun cs => (cs, ([] : List String)))
  else
    some ([], [toolErrMsg])

end ObjectThreadMilling

/-- Exact values of the trigonometric functions at the arguments exercised by
the concrete inputs of this development: `sinpi` and `cospi` are only ever
applied to `k = 1/2`, where `sin(pi/2) = 1` and `cos(pi/2) = 0` exactly; the
remaining oracle fields are only ever multiplied by an elevator offset of 0,
so their values do not influence any concrete output below. -/
def trigExact : TrigOracle where
  sinpi := fun k => if k = 1 / 2 then 1 else 0
  cospi := fun _ => 0
  atan2 := fun _ _ => 0
  cos := fun _ => 0
  sin := fun _ => 0


/-! ## Helper lemmas -/

/-- Truncation toward zero vanishes on [0, 1). -/
theorem ratTrunc_eq_zero (q : ℚ) (h0 : 0 ≤ q) (h1 : q < 1) : ratTrunc q = 0 := by
  unfold ratTrunc
  obtain ⟨n, hn⟩ := Int.eq_ofNat_of_zero_le (Rat.num_nonneg.mpr h0)
  have hlt : q.num < (q.den : ℤ) := Rat.lt_one_iff_num_lt_denom.mp h1
  rw [hn] at hlt ⊢
  have hnd : n < q.den := by exact_mod_cast hlt
  have hred : ((n : ℤ).tdiv (q.den : ℤ)) = Int.ofNat (n / q.den) := rfl
  rw [hred, Nat.div_eq_of_lt hnd]
  rfl

/-! ## Theorems about the claims -/

/-- C1: evaluation at the failing input.  For the external thread with
majorDia = 10, minorDia = 8.5, toolDia = 3, toolCrest = 0 and two passes, the
pass sequence is [5.975, 6.5]: its last element is 6.5, the first envelope
component (the outermost starting radius, where nothing is cut), while the
boundary nearest the final cut is 5.45.  The final pass therefore does not
reach the full theoretical final-cut radius, not even within 1e-9. -/
theorem c1_external_last_pass_eval :
    threadPasses 2 threadRadii false 10 8.5 3 0 = some [5.975, 6.5] ∧
    (threadRadii false 10 8.5 3 0).2 = 5.45 ∧
    ¬ (|(6.5 : ℚ) - 5.45| ≤ 1 / 1000000000) := by
  refine ⟨?_, ?_, ?_⟩
  · simp only [threadPasses, threadRadii, SQRT_3_DIVIDED_BY_2,
      show Int.toNat 2 = 2 from rfl]
    norm_num [List.range_succ]
  · norm_num [threadRadii, SQRT_3_DIVIDED_BY_2]
  · norm_num [abs_le]

/-- C2: evaluation at the failing input.  For the external thread with
majorDia = 10, minorDia = 8.5, toolDia = 3, toolCrest = 0 and three passes,
the sequence returned by threadPasses is [5.8, 6.15, 6.5]: it has length 3 as
claimed, but it is strictly increasing, not strictly decreasing. -/
theorem c2_external_passes_increase :
    threadPasses 3 threadRadii false 10 8.5 3 0 = some [5.8, 6.15, 6.5] ∧
    (5.8 : ℚ) < 6.15 ∧ (6.15 : ℚ) < 6.5 := by
  refine ⟨?_, by norm_num, by norm_num⟩
  simp only [threadPasses, threadRadii, SQRT_3_DIVIDED_BY_2,
    show Int.toNat 3 = 3 from rfl]
  norm_num [List.range_succ]

/-- C3 counterexample: at majorDia = 10, minorDia = 8.5, toolDia = 1,
toolCrest = 0 — a parameter set satisfying every hypothesis of the claim —
the external pair returned by threadRadii is (5.5, 4.45), so its first
component is not strictly less than its second. -/
theorem c3_claim_false :
    ((8.5 : ℚ) < 10 ∧ (0 : ℚ) < 8.5 ∧ (0 : ℚ) ≤ 0 ∧ (1 : ℚ) < 10 - 8.5) ∧
    ¬ ((threadRadii false 10 8.5 1 0).1 < (threadRadii false 10 8.5 1 0).2) := by
  refine ⟨by norm_num, ?_⟩
  norm_num [threadRadii, SQRT_3_DIVIDED_BY_2]

/-- C3 amended: under the claim's hypotheses the internal pair satisfies
fst < snd provided additionally toolCrest·(sqrt3/2) < (3/5)·(majorDia−minorDia)
(the crest compensation does not consume the whole thread depth), while for
external threads the order is reversed: the second component (the boundary
nearest the final cut) is strictly below the first (the outer starting
radius). -/
theorem c3_radii_order (majorDia minorDia toolDia toolCrest : ℚ)
    (h1 : minorDia < majorDia) (h2 : 0 < minorDia) (h3 : 0 ≤ toolCrest)
    (h4 : toolDia < majorDia - minorDia) :
    (toolCrest * SQRT_3_DIVIDED_BY_2 < 3 / 5 * (majorDia - minorDia) →
      (threadRadii true majorDia minorDia toolDia toolCrest).1 <
        (threadRadii true majorDia minorDia toolDia toolCrest).2) ∧
    (threadRadii false majorDia minorDia toolDia toolCrest).2 <
      (threadRadii false majorDia minorDia toolDia toolCrest).1 := by
  unfold threadRadii SQRT_3_DIVIDED_BY_2
  constructor
  · intro h5
    norm_num at h5 ⊢
    linarith
  · norm_num
    linarith

/-- C3 witness: the amended order holds at majorDia = 10, minorDia = 8.5,
toolDia = 1, toolCrest = 0, in both the internal and the external case. -/
theorem c3_radii_order_witness :
    ((threadRadii true 10 8.5 1 0).1 < (threadRadii true 10 8.5 1 0).2) ∧
    ((threadRadii false 10 8.5 1 0).2 < (threadRadii false 10 8.5 1 0).1) :=
  ⟨(c3_radii_order 10 8.5 1 0 (by norm_num) (by norm_num) (by norm_num)
      (by norm_num)).1 (by norm_num [SQRT_3_DIVIDED_BY_2]),
   (c3_radii_order 10 8.5 1 0 (by norm_num) (by norm_num) (by norm_num)
      (by norm_num)).2⟩

/-- C9 counterexample: at majorDia = 10, minorDia = 8.5, toolDia = 3,
toolCrest = 0.5, internal, the second component returned by threadRadii is
exactly 3.2169872981077807, which differs from the claimed 3.2170127 by about
2.54e-5, far outside the claimed 1e-6 tolerance (the claim's intermediate
toolTip = 4.7170127 is an arithmetic slip: 5.15 − 0.5·0.8660254... =
4.7169872981077807). -/
theorem c9_claim_false :
    (threadRadii true 10 8.5 3 0.5).1 = 2.75 ∧
    ¬ (|(threadRadii true 10 8.5 3 0.5).2 - 3.2170127| ≤ 1 / 1000000) := by
  constructor
  · norm_num [threadRadii, SQRT_3_DIVIDED_BY_2]
  · norm_num [threadRadii, SQRT_3_DIVIDED_BY_2, abs_le]

/-- C9 amended: at majorDia = 10, minorDia = 8.5, toolDia = 3, toolCrest = 0.5,
internal, threadRadii returns exactly (2.75, 3.2169872981077807) — via
H = 1.2, outerTip = 5.15, toolTip = 4.7169872981077807 — so each component is
within 1e-6 of (2.75, 3.2169873). -/
theorem c9_threadRadii_concrete :
    threadRadii true 10 8.5 3 0.5 = (2.75, 3.2169872981077807) ∧
    |(threadRadii true 10 8.5 3 0.5).2 - 3.2169873| ≤ 1 / 1000000 := by
  constructor
  · norm_num [threadRadii, SQRT_3_DIVIDED_BY_2]
  · norm_num [threadRadii, SQRT_3_DIVIDED_BY_2, abs_le]

/-- C6: the internal elevator offset is (MinorDiameter − Diameter)/2 − 1
whenever that value is non-negative; when it is negative the offset is clamped
to exactly 0; the tool-too-large diagnostic is reported if and only if
MinorDiameter < Diameter (the computation never aborts); and the external
offset is (MajorDiameter + Diameter)/2 + 1 with no diagnostic. -/
theorem c6_elevator_internal_clamp (obj : OpConfig) (center : Vec2) (tool : ToolSpec) :
    (0 ≤ (obj.MinorDiameter - tool.Diameter) / 2 - 1 →
      elevatorRadius obj center true tool =
        ((obj.MinorDiameter - tool.Diameter) / 2 - 1, false)) ∧
    ((obj.MinorDiameter - tool.Diameter) / 2 - 1 < 0 →
      (elevatorRadius obj center true tool).1 = 0) ∧
    ((elevatorRadius obj center true tool).2 = true ↔
      obj.MinorDiameter < tool.Diameter) ∧
    elevatorRadius obj center false tool =
      ((obj.MajorDiameter + tool.Diameter) / 2 + 1, false) := by
  refine ⟨?_, ?_, ?_, ?_⟩
  · intro h
    rw [elevatorRadius]
    simp only [if_neg (not_lt.mpr h)]
    rfl
  · intro h
    rw [elevatorRadius]
    simp only [if_pos h]
    rfl
  · constructor
    · intro h
      by_cases hdy : (obj.MinorDiameter - tool.Diameter) / 2 - 1 < 0
      · rw [elevatorRadius] at h
        simp only [if_pos hdy] at h
        simpa using h
      · rw [elevatorRadius] at h
        simp only [if_neg hdy] at h
        simp at h
    · intro h
      have hdy : (obj.MinorDiameter - tool.Diameter) / 2 - 1 < 0 := by linarith
      rw [elevatorRadius]
      simp only [if_pos hdy]
      simpa using h
  · rfl

/-- C6 witness: at MinorDiameter = 5, MajorDiameter = 10, Diameter = 8 the
internal elevator offset is clamped to 0 and the tool-too-large diagnostic is
reported. -/
theorem c6_elevator_internal_clamp_witness :
    (elevatorRadius ⟨"RightHand", "MetricInternal6H", 10, 5, 1, 0, 1, "Climb",
        false, 0, -5, 10⟩ ⟨0, 0⟩ true ⟨8, 0.5⟩).1 = 0 ∧
    (elevatorRadius ⟨"RightHand", "MetricInternal6H", 10, 5, 1, 0, 1, "Climb",
        false, 0, -5, 10⟩ ⟨0, 0⟩ true ⟨8, 0.5⟩).2 = true :=
  ⟨(c6_elevator_internal_clamp ⟨"RightHand", "MetricInternal6H", 10, 5, 1, 0, 1,
      "Climb", false, 0, -5, 10⟩ ⟨0, 0⟩ ⟨8, 0.5⟩).2.1 (by norm_num),
   (c6_elevator_internal_clamp ⟨"RightHand", "MetricInternal6H", 10, 5, 1, 0, 1,
      "Climb", false, 0, -5, 10⟩ ⟨0, 0⟩ ⟨8, 0.5⟩).2.2.1.mpr (by norm_num)⟩

/-- C10: for external threads the elevator computation reports no diagnostic
and applies no clamp: for every MajorDiameter > 0 and Diameter > 0 it returns
exactly ((MajorDiameter + Diameter)/2 + 1, no diagnostic), a strictly positive
offset; the tool-too-large check lives only in the internal branch. -/
theorem c10_elevator_external (obj : OpConfig) (center : Vec2) (tool : ToolSpec)
    (h1 : 0 < obj.MajorDiameter) (h2 : 0 < tool.Diameter) :
    elevatorRadius obj center false tool =
      ((obj.MajorDiameter + tool.Diameter) / 2 + 1, false) ∧
    0 < (elevatorRadius obj center false tool).1 := by
  refine ⟨rfl, ?_⟩
  show (0 : ℚ) < (obj.MajorDiameter + tool.Diameter) / 2 + 1
  linarith

/-- C10 witness: at MajorDiameter = 10, Diameter = 8 the external elevator
offset is (10 + 8)/2 + 1 = 10 > 0 and no diagnostic is reported. -/
theorem c10_elevator_external_witness :
    elevatorRadius ⟨"RightHand", "MetricExternal6G", 10, 8.5, 1, 0, 1, "Climb",
        false, 0, -5, 10⟩ ⟨0, 0⟩ false ⟨8, 0.5⟩ = (10, false) ∧
    0 < (elevatorRadius ⟨"RightHand", "MetricExternal6G", 10, 8.5, 1, 0, 1,
        "Climb", false, 0, -5, 10⟩ ⟨0, 0⟩ false ⟨8, 0.5⟩).1 := by
  have h := c10_elevator_external ⟨"RightHand", "MetricExternal6G", 10, 8.5, 1,
    0, 1, "Climb", false, 0, -5, 10⟩ ⟨0, 0⟩ ⟨8, 0.5⟩ (by norm_num) (by norm_num)
  refine ⟨?_, h.2⟩
  rw [h.1]
  norm_num

/-- C4: the direction resolver implements exactly the claimed table.  For an
internal thread type: Climb+RightHand gives (G3/CCW, start = FinalDepth,
end = StartDepth); Climb+LeftHand gives (G3, StartDepth, FinalDepth);
Conventional+RightHand gives (G2/CW, StartDepth, FinalDepth);
Conventional+LeftHand gives (G2, FinalDepth, StartDepth).  For an external
thread type the arc command of the internal-equivalent result is inverted
(G2 and G3 swapped) while the two depths are unchanged. -/
theorem c4_threadSetup_table (obj : OpConfig) :
    (ObjectThreadMilling.ThreadTypesInternal.contains obj.ThreadType = true →
      (obj.Direction = "Climb" → obj.ThreadOrientation = "RightHand" →
        ObjectThreadMilling.threadSetup obj = ("G3", obj.FinalDepth, obj.StartDepth)) ∧
      (obj.Direction = "Climb" → obj.ThreadOrientation = "LeftHand" →
        ObjectThreadMilling.threadSetup obj = ("G3", obj.StartDepth, obj.FinalDepth)) ∧
      (obj.Direction = "Conventional" → obj.ThreadOrientation = "RightHand" →
        ObjectThreadMilling.threadSetup obj = ("G2", obj.StartDepth, obj.FinalDepth)) ∧
      (obj.Direction = "Conventional" → obj.ThreadOrientation = "LeftHand" →
        ObjectThreadMilling.threadSetup obj = ("G2", obj.FinalDepth, obj.StartDepth))) ∧
    (ObjectThreadMilling.ThreadTypesInternal.contains obj.ThreadType = false →
      ObjectThreadMilling.threadSetup obj =
        ((if (ObjectThreadMilling._threadSetupInternal obj).1 = "G2" then "G3" else "G2"),
         (ObjectThreadMilling._threadSetupInternal obj).2.1,
         (ObjectThreadMilling._threadSetupInternal obj).2.2)) := by
  constructor
  · intro hInt
    refine ⟨?_, ?_, ?_, ?_⟩ <;> intro hd ho <;>
      simp only [ObjectThreadMilling.threadSetup, ObjectThreadMilling._threadSetupInternal,
        hInt, hd, ho, ObjectThreadMilling.DirectionClimb, ObjectThreadMilling.RightHand,
        ObjectThreadMilling.DirectionConventional, ObjectThreadMilling.LeftHand] <;>
      simp
  · intro hExt
    by_cases hc : (ObjectThreadMilling._threadSetupInternal obj).1 = "G2"
    · simp only [ObjectThreadMilling.threadSetup, hExt, Bool.false_eq_true, if_false,
        if_pos hc]
    · simp only [ObjectThreadMilling.threadSetup, hExt, Bool.false_eq_true, if_false,
        if_neg hc]

/-- C4 witness: for the internal metric thread type with Climb+RightHand and
StartDepth = 0, FinalDepth = −5 the resolver yields (G3, −5, 0), and for the
external metric thread type with the same settings it yields the inverted arc
command (G2, −5, 0) with the depths unchanged. -/
theorem c4_threadSetup_table_witness :
    ObjectThreadMilling.threadSetup ⟨"RightHand", "MetricInternal6H", 10, 8.5, 1,
      0, 1, "Climb", false, 0, -5, 10⟩ = ("G3", -5, 0) ∧
    ObjectThreadMilling.threadSetup ⟨"RightHand", "MetricExternal6G", 10, 8.5, 1,
      0, 1, "Climb", false, 0, -5, 10⟩ = ("G2", -5, 0) := by
  constructor
  · exact ((c4_threadSetup_table ⟨"RightHand", "MetricInternal6H", 10, 8.5, 1,
      0, 1, "Climb", false, 0, -5, 10⟩).1 (by simp [ObjectThreadMilling.ThreadTypesInternal,
        ObjectThreadMilling.ThreadTypeCustomInternal,
        ObjectThreadMilling.ThreadTypeImperialInternal2B,
        ObjectThreadMilling.ThreadTypeImperialInternal3B,
        ObjectThreadMilling.ThreadTypeMetricInternal6H])).1 rfl rfl
  · have h := (c4_threadSetup_table ⟨"RightHand", "MetricExternal6G", 10, 8.5, 1,
      0, 1, "Climb", false, 0, -5, 10⟩).2 (by simp [ObjectThreadMilling.ThreadTypesInternal,
        ObjectThreadMilling.ThreadTypeCustomInternal,
        ObjectThreadMilling.ThreadTypeImperialInternal2B,
        ObjectThreadMilling.ThreadTypeImperialInternal3B,
        ObjectThreadMilling.ThreadTypeMetricInternal6H])
    rw [h]
    simp [ObjectThreadMilling._threadSetupInternal, ObjectThreadMilling.DirectionClimb,
      ObjectThreadMilling.RightHand]

/-- C5: the planner resolves the pitch as 25.4/TPI whenever TPI > 0 (taking
precedence over the configured Pitch) and as the configured Pitch otherwise;
whenever the resolved pitch is ≤ 0 it reports the pitch diagnostic and aborts,
emitting only the initial comment and no motion command (no G0/G1/G2/G3) for
the operation. -/
theorem c5_pitch_resolution (T : TrigOracle) (obj : OpConfig) (tool : ToolSpec)
    (vertRapid horizFeed : ℚ) (holes : List Vec2) :
    (0 < obj.TPI → ObjectThreadMilling.resolvedPitch obj = 25.4 / (obj.TPI : ℚ)) ∧
    (obj.TPI ≤ 0 → ObjectThreadMilling.resolvedPitch obj = obj.Pitch) ∧
    (ObjectThreadMilling.resolvedPitch obj ≤ 0 →
      ObjectThreadMilling.circularHoleExecute T obj tool true vertRapid horizFeed holes =
        some ([⟨"(Begin Thread Milling)", []⟩], [ObjectThreadMilling.pitchErrMsg]) ∧
      ∀ c ∈ [(⟨"(Begin Thread Milling)", []⟩ : PathCommand)],
        c.name ∉ ["G0", "G1", "G2", "G3"]) := by
  refine ⟨?_, ?_, ?_⟩
  · intro h
    rw [ObjectThreadMilling.resolvedPitch, if_pos h]
  · intro h
    rw [ObjectThreadMilling.resolvedPitch, if_neg (not_lt.mpr h)]
  · intro h
    refine ⟨?_, by decide⟩
    simp only [ObjectThreadMilling.circularHoleExecute, if_pos h]
    simp

/-- C5 witness: with TPI = 20 and Pitch = 1 the resolved pitch is
25.4/20 = 1.27; with TPI = 0 and Pitch = 1.5 it is 1.5; and with TPI = 0 and
Pitch = 0 the planner emits only the begin comment together with the pitch
diagnostic. -/
theorem c5_pitch_resolution_witness :
    ObjectThreadMilling.resolvedPitch ⟨"RightHand", "MetricInternal6H", 10, 8.5,
      1, 20, 1, "Climb", false, 0, -5, 10⟩ = 1.27 ∧
    ObjectThreadMilling.resolvedPitch ⟨"RightHand", "MetricInternal6H", 10, 8.5,
      1.5, 0, 1, "Climb", false, 0, -5, 10⟩ = 1.5 ∧
    ObjectThreadMilling.circularHoleExecute trigExact ⟨"RightHand",
      "MetricInternal6H", 10, 8.5, 0, 0, 1, "Climb", false, 0, -5, 10⟩ ⟨3, 0.5⟩
      true 1 1 [⟨0, 0⟩] =
      some ([⟨"(Begin Thread Milling)", []⟩], [ObjectThreadMilling.pitchErrMsg]) := by
  refine ⟨?_, ?_, ?_⟩
  · have h := (c5_pitch_resolution trigExact ⟨"RightHand", "MetricInternal6H",
      10, 8.5, 1, 20, 1, "Climb", false, 0, -5, 10⟩ ⟨3, 0.5⟩ 1 1 []).1 (by norm_num)
    rw [h]
    norm_num
  · exact (c5_pitch_resolution trigExact ⟨"RightHand", "MetricInternal6H",
      10, 8.5, 1.5, 0, 1, "Climb", false, 0, -5, 10⟩ ⟨3, 0.5⟩ 1 1 []).2.1 (by norm_num)
  · exact ((c5_pitch_resolution trigExact ⟨"RightHand", "MetricInternal6H",
      10, 8.5, 0, 0, 1, "Climb", false, 0, -5, 10⟩ ⟨3, 0.5⟩ 1 1 [⟨0, 0⟩]).2.2
      (by norm_num [ObjectThreadMilling.resolvedPitch])).1

/-- C7: evaluation at the failing input.  With Passes = 0 (and an otherwise
valid configuration: internal metric thread, Pitch = 1, TPI = 0, one hole) the
pass count reaches threadPasses unclamped, whose division by the count raises
ZeroDivisionError (modelled as none), and the exception propagates out of the
planner; the clamp of a pass count below 1 exists only in threadPassRadii,
which yields a single pass here but is not called on any execution path. -/
theorem c7_passes_unclamped_on_planner_path :
    threadPasses 0 threadRadii true 10 8.5 3 0.5 = none ∧
    ObjectThreadMilling.circularHoleExecute trigExact
      ⟨"RightHand", "MetricInternal6H", 10, 8.5, 1, 0, 0, "Climb", false, 0, -5, 10⟩
      ⟨3, 0.5⟩ true 1 1 [⟨0, 0⟩] = none ∧
    (ObjectThreadMilling.threadPassRadii
      ⟨"RightHand", "MetricInternal6H", 10, 8.5, 1, 0, 0, "Climb", false, 0, -5,
        10⟩ 3).length = 1 := by
  refine ⟨by simp [threadPasses], ?_, by simp [ObjectThreadMilling.threadPassRadii]⟩
  simp only [ObjectThreadMilling.circularHoleExecute,
    ObjectThreadMilling.executeThreadMill, ObjectThreadMilling.resolvedPitch,
    threadPasses]
  norm_num

/-- Evaluation of the thread helper at the concrete finish-move input:
cmd = G3, zStart = 0, zFinal = 1/4, pitch = 1. -/
theorem threadInit_G3_eval :
    _ThreadInternal.init "G3" 0 (1/4) 1 = ⟨"G3", 1, 1/2, 0, 1/4⟩ := by
  rw [_ThreadInternal.init]
  norm_num

/-- The fractional half-turn count of that thread is 1/2 (n = 0.25/0.5). -/
theorem fracTurn_eval : (⟨"G3", 1, 1/2, 0, 1/4⟩ : _ThreadInternal).fracTurn = 1/2 := by
  show |(1/4 : ℚ) - 0| / (1/2) - (ratTrunc (|(1/4 : ℚ) - 0| / (1/2)) : ℚ) = 1/2
  rw [show |(1/4 : ℚ) - 0| = 1/4 by
    rw [abs_of_nonneg (by norm_num : (0 : ℚ) ≤ 1/4 - 0)]; norm_num]
  rw [show ((1 : ℚ)/4) / (1/2) = 1/2 by norm_num]
  rw [ratTrunc_eq_zero (1/2) (by norm_num) (by norm_num)]
  norm_num

/-- The loop-fuel bound of that thread evaluates to 2. -/
theorem helixFuel_eval : helixFuel ⟨"G3", 1, 1/2, 0, 1/4⟩ = 2 := by
  rw [helixFuel]
  norm_num
  rw [ratTrunc_eq_zero (1/2) (by norm_num) (by norm_num)]

/-- 0 is not roughly 1/4. -/
theorem isRoughly_zero_quarter : isRoughly 0 ((1:ℚ)/4) = false := by
  simp only [isRoughly, decide_eq_false_iff_not]
  rw [abs_of_nonpos (by norm_num)]
  norm_num

/-- At z = 0 one more half pitch (1/2) would overshoot zFinal = 1/4. -/
theorem overshoots_eval :
    (⟨"G3", 1, 1/2, 0, 1/4⟩ : _ThreadInternal).overshoots 0 = true := by
  simp only [_ThreadInternal.overshoots]
  norm_num

/-- The helix body loop for that thread breaks immediately: no body arc is
emitted and the state stays (z = 0, r = −2, i = 0). -/
theorem helixLoop_eval :
    helixLoop ⟨"G3", 1, 1/2, 0, 1/4⟩ (-2) 2 2 0 (-2) 0 = ([], 0, -2, 0) := by
  rw [show (2 : ℕ) = 1 + 1 from rfl]
  rw [helixLoop]
  rw [isRoughly_zero_quarter, overshoots_eval]
  simp

/-- C8 counterexample: at center = (0,0), cmd = G3 (CCW), zStart = 0,
zFinal = 1/4, pitch = 1 (so the signed pitch is positive and the depth range
is half a half-pitch step, k = 1/2, dx = sin(k·pi) = 1, r = −2), the emitted
finish X coordinate is −2 = center.x + r·dx.  The claim's XOR rule is false
here (CCW and positive pitch), so the claim mandates
X = center.x − r·dx = 2 ≠ −2: the code adds r·dx exactly when CCW agrees with
positive pitch, not when they differ. -/
theorem c8_claim_false :
    isRoughly 0 ((1 : ℚ)/4) = false ∧
    (threadCommands trigExact ⟨0, 0⟩ "G3" 0 (1/4) 1 2 false 0)[4]? =
      some ⟨"G3", [("X", -2), ("Y", 0), ("Z", 1/4), ("J", -2)]⟩ ∧
    trigExact.sinpi ((_ThreadInternal.init "G3" 0 (1/4) 1).fracTurn) = 1 ∧
    ((0 : ℚ) - (-2) * 1 = 2) ∧ ¬ ((-2 : ℚ) = 2) := by
  refine ⟨isRoughly_zero_quarter, ?_, ?_, by norm_num, by norm_num⟩
  · rw [threadCommands, threadInit_G3_eval]
    simp only [helixFuel_eval]
    norm_num [helixLoop_eval, isRoughly_zero_quarter, fracTurn_eval, threadFinish,
      _ThreadInternal.adjustX, _ThreadInternal.adjustY, _ThreadInternal.isG3,
      trigExact, commentCmd]
  · rw [threadInit_G3_eval, fracTurn_eval]
    simp [trigExact]

/-- C8 amended: in the partial-turn finish move of threadCommands (taken
whenever the post-loop z is not roughly zFinal), the emitted finish command
carries X = adjustX(center.x, r·dx) with dx = sin(fracTurn·pi), and that X
equals center.x + r·dx exactly when the arc command is CCW (G3) if and only if
the signed pitch is positive — i.e. when the two agree — and center.x − r·dx
when they differ (the opposite of the claimed XOR rule). -/
theorem c8_finish_x_rule (T : TrigOracle) (center : Vec2) (cmd : String)
    (zStart zFinal pitch radius : ℚ) (leadInOut : Bool) (elevator : ℚ)
    (h : isRoughly
      (helixLoop (_ThreadInternal.init cmd zStart zFinal pitch)
        (center.y - radius) (center.y + radius)
        (helixFuel (_ThreadInternal.init cmd zStart zFinal pitch))
        (_ThreadInternal.init cmd zStart zFinal pitch).zStart (-radius) 0).2.1
      (_ThreadInternal.init cmd zStart zFinal pitch).zFinal = false) :
    ((⟨(_ThreadInternal.init cmd zStart zFinal pitch).cmd,
       [("X", (threadFinish T (_ThreadInternal.init cmd zStart zFinal pitch) center
          (helixLoop (_ThreadInternal.init cmd zStart zFinal pitch)
            (center.y - radius) (center.y + radius)
            (helixFuel (_ThreadInternal.init cmd zStart zFinal pitch))
            (_ThreadInternal.init cmd zStart zFinal pitch).zStart (-radius) 0).2.2.1).1),
        ("Y", (threadFinish T (_ThreadInternal.init cmd zStart zFinal pitch) center
          (helixLoop (_ThreadInternal.init cmd zStart zFinal pitch)
            (center.y - radius) (center.y + radius)
            (helixFuel (_ThreadInternal.init cmd zStart zFinal pitch))
            (_ThreadInternal.init cmd zStart zFinal pitch).zStart (-radius) 0).2.2.1).2),
        ("Z", (_ThreadInternal.init cmd zStart zFinal pitch).zFinal),
        ("J", (helixLoop (_ThreadInternal.init cmd zStart zFinal pitch)
            (center.y - radius) (center.y + radius)
            (helixFuel (_ThreadInternal.init cmd zStart zFinal pitch))
            (_ThreadInternal.init cmd zStart zFinal pitch).zStart (-radius) 0).2.2.1)]⟩ :
      PathCommand) ∈
      threadCommands T center cmd zStart zFinal pitch radius leadInOut elevator) ∧
    (threadFinish T (_ThreadInternal.init cmd zStart zFinal pitch) center
      (helixLoop (_ThreadInternal.init cmd zStart zFinal pitch)
        (center.y - radius) (center.y + radius)
        (helixFuel (_ThreadInternal.init cmd zStart zFinal pitch))
        (_ThreadInternal.init cmd zStart zFinal pitch).zStart (-radius) 0).2.2.1).1 =
      (if (_ThreadInternal.init cmd zStart zFinal pitch).isG3 =
          decide (0 < (_ThreadInternal.init cmd zStart zFinal pitch).pitch)
        then center.x + (helixLoop (_ThreadInternal.init cmd zStart zFinal pitch)
            (center.y - radius) (center.y + radius)
            (helixFuel (_ThreadInternal.init cmd zStart zFinal pitch))
            (_ThreadInternal.init cmd zStart zFinal pitch).zStart (-radius) 0).2.2.1 *
          T.sinpi (_ThreadInternal.init cmd zStart zFinal pitch).fracTurn
        else center.x - (helixLoop (_ThreadInternal.init cmd zStart zFinal pitch)
            (center.y - radius) (center.y + radius)
            (helixFuel (_ThreadInternal.init cmd zStart zFinal pitch))
            (_ThreadInternal.init cmd zStart zFinal pitch).zStart (-radius) 0).2.2.1 *
          T.sinpi (_ThreadInternal.init cmd zStart zFinal pitch).fracTurn) := by
  constructor
  · rw [threadCommands]
    simp only [h, Bool.false_eq_true, if_false]
    simp [threadFinish, List.mem_append]
  · rw [threadFinish, _ThreadInternal.adjustX]

/-- The finish branch is taken at the concrete input of the C8 analysis:
after the helix loop the reached z = 0 is not roughly zFinal = 1/4. -/
theorem finishScope_eval :
    isRoughly
      (helixLoop (_ThreadInternal.init "G3" 0 (1/4) 1)
        ((⟨0, 0⟩ : Vec2).y - 2) ((⟨0, 0⟩ : Vec2).y + 2)
        (helixFuel (_ThreadInternal.init "G3" 0 (1/4) 1))
        (_ThreadInternal.init "G3" 0 (1/4) 1).zStart (-2) 0).2.1
      (_ThreadInternal.init "G3" 0 (1/4) 1).zFinal = false := by
  rw [threadInit_G3_eval, helixFuel_eval]
  show isRoughly
    (helixLoop ⟨"G3", 1, 1/2, 0, 1/4⟩ ((0 : ℚ) - 2) ((0 : ℚ) + 2) 2 0 (-2) 0).2.1
    ((1 : ℚ)/4) = false
  norm_num
  rw [helixLoop_eval]
  exact isRoughly_zero_quarter

/-- C8 witness: the amended finish-X rule instantiated at center = (0,0),
cmd = G3, zStart = 0, zFinal = 1/4, pitch = 1, radius = 2, with the concrete
trigonometric oracle: the finish command is emitted and its X obeys the
agreement (XNOR) rule. -/
theorem c8_finish_x_rule_witness :
    isRoughly
      (helixLoop (_ThreadInternal.init "G3" 0 (1/4) 1)
        ((⟨0, 0⟩ : Vec2).y - 2) ((⟨0, 0⟩ : Vec2).y + 2)
        (helixFuel (_ThreadInternal.init "G3" 0 (1/4) 1))
        (_ThreadInternal.init "G3" 0 (1/4) 1).zStart (-2) 0).2.1
      (_ThreadInternal.init "G3" 0 (1/4) 1).zFinal = false ∧
    (((⟨(_ThreadInternal.init "G3" 0 (1/4) 1).cmd,
       [("X", (threadFinish trigExact (_ThreadInternal.init "G3" 0 (1/4) 1) ⟨0, 0⟩
          (helixLoop (_ThreadInternal.init "G3" 0 (1/4) 1)
            ((⟨0, 0⟩ : Vec2).y - 2) ((⟨0, 0⟩ : Vec2).y + 2)
            (helixFuel (_ThreadInternal.init "G3" 0 (1/4) 1))
            (_ThreadInternal.init "G3" 0 (1/4) 1).zStart (-2) 0).2.2.1).1),
        ("Y", (threadFinish trigExact (_ThreadInternal.init "G3" 0 (1/4) 1) ⟨0, 0⟩
          (helixLoop (_ThreadInternal.init "G3" 0 (1/4) 1)
            ((⟨0, 0⟩ : Vec2).y - 2) ((⟨0, 0⟩ : Vec2).y + 2)
            (helixFuel (_ThreadInternal.init "G3" 0 (1/4) 1))
            (_ThreadInternal.init "G3" 0 (1/4) 1).zStart (-2) 0).2.2.1).2),
        ("Z", (_ThreadInternal.init "G3" 0 (1/4) 1).zFinal),
        ("J", (helixLoop (_ThreadInternal.init "G3" 0 (1/4) 1)
            ((⟨0, 0⟩ : Vec2).y - 2) ((⟨0, 0⟩ : Vec2).y + 2)
            (helixFuel (_ThreadInternal.init "G3" 0 (1/4) 1))
            (_ThreadInternal.init "G3" 0 (1/4) 1).zStart (-2) 0).2.2.1)]⟩ :
      PathCommand) ∈
      threadCommands trigExact ⟨0, 0⟩ "G3" 0 (1/4) 1 2 false 0) ∧
    (threadFinish trigExact (_ThreadInternal.init "G3" 0 (1/4) 1) ⟨0, 0⟩
      (helixLoop (_ThreadInternal.init "G3" 0 (1/4) 1)
        ((⟨0, 0⟩ : Vec2).y - 2) ((⟨0, 0⟩ : Vec2).y + 2)
        (helixFuel (_ThreadInternal.init "G3" 0 (1/4) 1))
        (_ThreadInternal.init "G3" 0 (1/4) 1).zStart (-2) 0).2.2.1).1 =
      (if (_ThreadInternal.init "G3" 0 (1/4) 1).isG3 =
          decide (0 < (_ThreadInternal.init "G3" 0 (1/4) 1).pitch)
        then (⟨0, 0⟩ : Vec2).x + (helixLoop (_ThreadInternal.init "G3" 0 (1/4) 1)
            ((⟨0, 0⟩ : Vec2).y - 2) ((⟨0, 0⟩ : Vec2).y + 2)
            (helixFuel (_ThreadInternal.init "G3" 0 (1/4) 1))
            (_ThreadInternal.init "G3" 0 (1/4) 1).zStart (-2) 0).2.2.1 *
          trigExact.sinpi (_ThreadInternal.init "G3" 0 (1/4) 1).fracTurn
        else (⟨0, 0⟩ : Vec2).x - (helixLoop (_ThreadInternal.init "G3" 0 (1/4) 1)
            ((⟨0, 0⟩ : Vec2).y - 2) ((⟨0, 0⟩ : Vec2).y + 2)
            (helixFuel (_ThreadInternal.init "G3" 0 (1/4) 1))
            (_ThreadInternal.init "G3" 0 (1/4) 1).zStart (-2) 0).2.2.1 *
          trigExact.sinpi (_ThreadInternal.init "G3" 0 (1/4) 1).fracTurn)) :=
  ⟨finishScope_eval,
   c8_finish_x_rule trigExact ⟨0, 0⟩ "G3" 0 (1/4) 1 2 false 0 finishScope_eval⟩
